import Mathlib

/-!
Verification development for the playback-control core of cmdRadioPy
(src/player.py and the OSD part of src/main.py), shallowly embedded in Lean.

Python values flowing through the mpv JSON IPC are dynamically typed; they
are embedded as the inductive `PyObj`.  Python floats are modelled exactly
over `ℚ` (no NaN/Inf: mpv's JSON line protocol carries plain decimal
numbers).  Fallible Python operations (conversions that can raise) return
`Option`; a raised exception inside a `try` block is propagated as `none`
by the step functions and caught by the enclosing block, exactly mirroring
the `try/except` structure of the source.
-/

namespace CmdRadioPy

/-- A Python/JSON value as it appears on the mpv IPC channel and in the
playback-state dictionaries.  `pyBool` is kept separate from `pyInt` but the
numeric helpers below treat it as an `int` subtype, as Python does. -/
inductive PyObj where
  | pyNone
  | pyBool (b : Bool)
  | pyInt (n : Int)
  | pyFloat (q : ℚ)
  | pyStr (s : String)
  | pyArr (xs : List PyObj)
  | pyDict (xs : List (String × PyObj))

/-- Python truthiness (`bool(x)`).  Containers are truthy iff non-empty. -/
def pyTruthy : PyObj → Bool
  | .pyNone => false
  | .pyBool b => b
  | .pyInt n => n ≠ 0
  | .pyFloat q => q ≠ 0
  | .pyStr s => s ≠ ""
  | .pyArr xs => !xs.isEmpty
  | .pyDict xs => !xs.isEmpty

/-- `isinstance(x, (int, float))`.  Python's `bool` is a subclass of `int`. -/
def pyIsNumber : PyObj → Bool
  | .pyBool _ => true
  | .pyInt _ => true
  | .pyFloat _ => true
  | _ => false

/-- Python `str.strip()`: drop leading and trailing whitespace.  Written
structurally over the character list so that it reduces in the kernel
(core `String.trim` is defined by well-founded recursion and does not). -/
def pyStrip (s : String) : String :=
  String.mk (((s.data.dropWhile Char.isWhitespace).reverse.dropWhile
    Char.isWhitespace).reverse)

/-- Truncation toward zero, the semantics of Python's `int()` on a float. -/
def pyTruncQ (q : ℚ) : Int := if 0 ≤ q then ⌊q⌋ else ⌈q⌉

/-- `int(x)` on a value already known numeric (int, bool or float). -/
def pyNumTrunc : PyObj → Int
  | .pyBool b => if b then 1 else 0
  | .pyInt n => n
  | .pyFloat q => pyTruncQ q
  | _ => 0

/-- `int("...")` for a plain optionally-signed decimal literal (the only
string shape relevant on this channel); `none` models a raised
`ValueError`. -/
def pyIntOfStr (s : String) : Option Int :=
  let t := pyStrip s
  let (neg, digits) :=
    if t.startsWith "-" then (true, t.drop 1)
    else if t.startsWith "+" then (false, t.drop 1) else (false, t)
  if digits.length = 0 ∨ ¬ digits.all Char.isDigit then none
  else
    let v : Int := digits.foldl (fun acc c => acc * 10 + (c.toNat - '0'.toNat)) 0
    some (if neg then -v else v)

/-- `float("...")` for a plain decimal literal `[±]digits[.digits]`;
`none` models a raised `ValueError`. -/
def pyFloatOfStr (s : String) : Option ℚ :=
  let t := pyStrip s
  let (neg, body) :=
    if t.startsWith "-" then (true, t.drop 1)
    else if t.startsWith "+" then (false, t.drop 1) else (false, t)
  let parts := body.splitOn "."
  match parts with
  | [ip] =>
    if ip.length = 0 ∨ ¬ ip.all Char.isDigit then none
    else
      let v : ℚ := (ip.foldl (fun acc c => acc * 10 + (c.toNat - '0'.toNat)) (0 : Int) : Int)
      some (if neg then -v else v)
  | [ip, fp] =>
    if (ip.length = 0 ∧ fp.length = 0) ∨ ¬ ip.all Char.isDigit ∨ ¬ fp.all Char.isDigit then none
    else
      let iv : ℚ := (ip.foldl (fun acc c => acc * 10 + (c.toNat - '0'.toNat)) (0 : Int) : Int)
      let fv : ℚ := (fp.foldl (fun acc c => acc * 10 + (c.toNat - '0'.toNat)) (0 : Int) : Int)
      let denom : ℚ := ((10 : ℚ) ^ fp.length)
      some ((if neg then -1 else 1) * (iv + fv / denom))
  | _ => none

/-- `int(x)`: `none` models a raised `TypeError`/`ValueError`. -/
def pyToInt : PyObj → Option Int
  | .pyBool b => some (if b then 1 else 0)
  | .pyInt n => some n
  | .pyFloat q => some (pyTruncQ q)
  | .pyStr s => pyIntOfStr s
  | _ => none

/-- `float(x)`: `none` models a raised `TypeError`/`ValueError`. -/
def pyToFloat : PyObj → Option ℚ
  | .pyBool b => some (if b then 1 else 0)
  | .pyInt n => some (n : ℚ)
  | .pyFloat q => some q
  | .pyStr s => pyFloatOfStr s
  | _ => none

/-- Decimal rendering of a rational that is an integer; used by `pyStrOf`
for the float case (mpv titles are strings, so the exact float repr never
matters to any claim; non-integer rationals are rendered with `/`). -/
def pyStrOf : PyObj → String
  | .pyNone => "None"
  | .pyBool b => if b then "True" else "False"
  | .pyInt n => toString n
  | .pyFloat q => toString q
  | .pyStr s => s
  | .pyArr _ => "[...]"
  | .pyDict _ => "{...}"

/-- Python `==` between an IPC value and an `int` request id (`1 == 1.0`
and `True == 1` hold in Python). -/
def pyEqInt (v : PyObj) (r : Int) : Bool :=
  match v with
  | .pyInt n => n = r
  | .pyFloat q => q = (r : ℚ)
  | .pyBool b => (if b then (1 : Int) else 0) = r
  | _ => false

/-- Python's `round()`: nearest integer, ties to even (used on the exact
rational value of `bps / 1000`). -/
def pyRoundQ (q : ℚ) : Int :=
  let f := ⌊q⌋
  let r := q - (f : ℚ)
  if r < 1/2 then f
  else if 1/2 < r then f + 1
  else if f % 2 = 0 then f else f + 1

/-- Two-digit zero padding, the `"%02d"` format used by the time
formatter (its arguments are non-negative on every reachable path). -/
def pad2 (n : Int) : String :=
  let s := toString n
  if s.length < 2 then "0" ++ s else s

/-- `_format_time_hms` from src/main.py (lines 1763-1772), over a
dynamically typed argument.  The source evaluates `seconds < 0` BEFORE the
`isinstance` guard, so a value that does not support comparison with `0`
(e.g. a `str`) raises `TypeError`; this is modelled by `Except`. -/
def formatTimeHms (seconds : PyObj) : Except String String :=
  match (match seconds with
         | .pyInt n => Except.ok (decide (n < 0))
         | .pyFloat q => Except.ok (decide (q < 0))
         | .pyBool _ => Except.ok false
         | _ => Except.error "TypeError") with
  | .error e => .error e
  | .ok lt =>
    if lt || !(pyIsNumber seconds) then .ok "00:00"
    else
      let secs : Int := pyNumTrunc seconds
      -- Python divmod is floor division; secs is ≥ 0 here (guard above).
      let mins := Int.fdiv secs 60
      let s := Int.fmod secs 60
      let h := Int.fdiv mins 60
      let m := Int.fmod mins 60
      if 0 < h then .ok (pad2 h ++ ":" ++ pad2 m ++ ":" ++ pad2 s)
      else .ok (pad2 m ++ ":" ++ pad2 s)

/-- Total rendering of a non-negative rational time, as used by the OSD
drawing code (`_format_time_hms` never raises on a float argument). -/
def fmtHmsQ (q : ℚ) : String := ((formatTimeHms (.pyFloat q)).toOption).getD ""

/-! ## Envelope codec: `_ipc_recv` (src/player.py lines 146-199)

One call to `conn.recv(1)` / `conn.read(1)` is abstracted as a
`ReadResult`; the channel's behaviour during a receive is a finite list of
such results (reading past its end stands for a receive that times out —
`socket.timeout`, caught by the handler).  `json.loads(buf.decode().strip())`
is abstracted as a `parse` oracle on the accumulated byte list; `none`
models `JSONDecodeError`/`UnicodeDecodeError`, both caught by the handler.
Inbound decoded values are modelled as JSON objects (string-keyed
association lists), the only shape mpv's line protocol carries. -/

/-- A decoded inbound envelope: one JSON object. -/
def IpcMsg : Type := List (String × PyObj)

/-- One byte-read step on the control channel. -/
inductive ReadResult where
  | byte (b : Nat)   -- `recv(1)` yielded one byte
  | closed           -- `recv(1)` returned `b""`: peer closed mid-frame
  | timedOut         -- `socket.timeout` was raised
  | ioError          -- `OSError` was raised
deriving Repr, DecidableEq

/-- The accumulation loop of `_ipc_recv`: read one byte at a time into
`acc` until the buffer ends with a newline, then parse; every failure mode
(closure, timeout, I/O error, exhausted channel, parse failure) yields
`none`, never an exception — the source's `except (json.JSONDecodeError,
OSError, socket.timeout, ValueError)` returns `None`. -/
def recvLoop (parse : List Nat → Option IpcMsg) :
    List ReadResult → List Nat → Option IpcMsg
  | [], _ => none
  | .byte b :: rest, acc =>
    let acc' := acc ++ [b]
    if b = 10 then parse acc' else recvLoop parse rest acc'
  | .closed :: _, _ => none
  | .timedOut :: _, _ => none
  | .ioError :: _, _ => none

/-- `_ipc_recv`: decode one newline-delimited JSON envelope. -/
def ipcRecv (parse : List Nat → Option IpcMsg) (reads : List ReadResult) :
    Option IpcMsg :=
  recvLoop parse reads []

/-! ## Request correlator: `_ipc_get_property` (src/player.py lines 202-213) -/

/-- `d.get(k)`: `none` both when the key is absent and when its value is
JSON null, exactly like Python's `dict.get` returning `None`. -/
def pyDictGet (d : IpcMsg) (k : String) : Option PyObj :=
  match d.find? (fun kv => kv.1 = k) with
  | some (_, .pyNone) => none
  | some (_, v) => some v
  | none => none

/-- `"data" in resp`: key presence (a null value still counts). -/
def envHasData (e : IpcMsg) : Bool := (e.find? (fun kv => kv.1 = "data")).isSome

/-- `resp["data"]` (only evaluated after `"data" in resp`). -/
def envDataValue (e : IpcMsg) : PyObj :=
  match e.find? (fun kv => kv.1 = "data") with
  | some (_, v) => v
  | none => .pyNone

/-- `resp.get("request_id") == req_id`. -/
def envReqIdMatches (e : IpcMsg) (reqId : Int) : Bool :=
  match pyDictGet e "request_id" with
  | some v => pyEqInt v reqId
  | none => false

/-- Whether one receive outcome is the matching response the correlator is
waiting for: a non-`None` envelope whose `request_id` equals the query's
and that carries a `data` key. -/
def envIsMatch (reqId : Int) (m : Option IpcMsg) : Bool :=
  match m with
  | some e => envReqIdMatches e reqId && envHasData e
  | none => false

/-- The bounded receive loop of `_ipc_get_property`: at most `fuel`
receives starting at position `i` of the receive oracle; returns the
Python result (`pyNone` for the silent failure) paired with the number of
receives actually performed.  An empty dict is falsy in Python, so it ends
the loop just like a `None` from `_ipc_recv`. -/
def ipcGetPropertyLoop (reqId : Int) (recvs : Nat → Option IpcMsg) :
    Nat → Nat → PyObj × Nat
  | 0, _ => (.pyNone, 0)
  | fuel + 1, i =>
    match recvs i with
    | none => (.pyNone, 1)
    | some resp =>
      if resp.isEmpty then (.pyNone, 1)
      else if envReqIdMatches resp reqId && envHasData resp then
        (envDataValue resp, 1)
      else
        let r := ipcGetPropertyLoop reqId recvs fuel (i + 1)
        (r.1, r.2 + 1)

/-- `_ipc_get_property`: send a `get_property` query tagged `reqId`, then
receive at most 12 envelopes, discarding events and mismatched responses;
the result is the matched response's `data`, or Python `None`.  The
receive stream is the oracle `recvs` (one entry per `_ipc_recv` call). -/
def ipcGetProperty (reqId : Int) (recvs : Nat → Option IpcMsg) : PyObj × Nat :=
  ipcGetPropertyLoop reqId recvs 12 0

/-! ## State sampler: `_gather_mpv_state` (src/player.py lines 485-549)

Each property query `_ipc_get_property(conn, prop)` either returns a value
(`val`, with Python `None` represented by `val .pyNone` — the silent
timeout/no-match result) or raises (`raised` — e.g. `OSError` out of the
un-guarded `_ipc_send`).  The three `try/except Exception` blocks of the
source are mirrored exactly: a raise aborts the remainder of its own block
only, keeping every assignment already made. -/

/-- Outcome of one `_ipc_get_property` call inside the sampler. -/
inductive QueryOutcome where
  | val (v : PyObj)   -- returned a value; `val .pyNone` is Python None
  | raised            -- the query raised an exception

/-- The Playback State snapshot assembled by the sampler (the `state`
dict of `_gather_mpv_state`, with its exact defaults). -/
structure MpvState where
  volume : Int
  mute : Bool
  pause : Bool
  media_title : String
  time_pos : ℚ
  duration : Option ℚ
  station_name : String
  play_mode : String
  channel_url : String
  source : String
  audio_codec : Option String
  audio_bitrate_kbps : Option Int
  samplerate_hz : Option Int
deriving Repr, DecidableEq

/-- The pre-populated snapshot: every field starts at its zero/unknown
default, so the dict is complete before any query runs. -/
def initialMpvState (station_name play_mode channel_url source : Option String) :
    MpvState :=
  { volume := 0
    mute := false
    pause := false
    media_title := ""
    time_pos := 0
    duration := none
    station_name := station_name.getD ""
    play_mode := play_mode.getD ""
    channel_url := channel_url.getD ""
    source := source.getD ""
    audio_codec := none
    audio_bitrate_kbps := none
    samplerate_hz := none }

/-- `v = q("volume"); if v is not None: state["volume"] = int(v) if
isinstance(v, (int, float)) else 0`.  `none` = the query raised. -/
def stepVolume (r : QueryOutcome) (s : MpvState) : Option MpvState :=
  match r with
  | .raised => none
  | .val .pyNone => some s
  | .val v => some { s with volume := if pyIsNumber v then pyNumTrunc v else 0 }

/-- `state["mute"] = bool(m)` (unconditional; `bool(None)` is `False`). -/
def stepMute (r : QueryOutcome) (s : MpvState) : Option MpvState :=
  match r with
  | .raised => none
  | .val v => some { s with mute := pyTruthy v }

/-- `state["pause"] = bool(p)`. -/
def stepPause (r : QueryOutcome) (s : MpvState) : Option MpvState :=
  match r with
  | .raised => none
  | .val v => some { s with pause := pyTruthy v }

/-- The ICY-title-with-fallback assignment: prefer a non-blank
`metadata/icy-title`, else fall back to `media-title` (blank when that is
`None`); `rmt` is only consulted on the fallback path, as in the source. -/
def stepTitle (ricy rmt : QueryOutcome) (s : MpvState) : Option MpvState :=
  match ricy with
  | .raised => none
  | .val icy =>
    let icyUsable := match icy with
      | .pyNone => false
      | v => pyStrip (pyStrOf v) ≠ ""
    if icyUsable then some { s with media_title := pyStrip (pyStrOf icy) }
    else
      match rmt with
      | .raised => none
      | .val .pyNone => some { s with media_title := "" }
      | .val t => some { s with media_title := pyStrip (pyStrOf t) }

/-- `state["time_pos"] = float(tp) if tp is not None else 0.0`; a raised
conversion (`float` of a non-numeric string, list, ...) aborts the block. -/
def stepTimePos (r : QueryOutcome) (s : MpvState) : Option MpvState :=
  match r with
  | .raised => none
  | .val .pyNone => some { s with time_pos := 0 }
  | .val v =>
    match pyToFloat v with
    | none => none
    | some q => some { s with time_pos := q }

/-- `state["duration"] = float(d) if d is not None else None`. -/
def stepDuration (r : QueryOutcome) (s : MpvState) : Option MpvState :=
  match r with
  | .raised => none
  | .val .pyNone => some { s with duration := none }
  | .val v =>
    match pyToFloat v with
    | none => none
    | some q => some { s with duration := some q }

/-- Tail of the first `try` block after the volume query. -/
def try1Rest5 (q : String → QueryOutcome) (s : MpvState) : MpvState :=
  match stepDuration (q "duration") s with
  | none => s
  | some s' => s'

def try1Rest4 (q : String → QueryOutcome) (s : MpvState) : MpvState :=
  match stepTimePos (q "time-pos") s with
  | none => s
  | some s' => try1Rest5 q s'

def try1Rest3 (q : String → QueryOutcome) (s : MpvState) : MpvState :=
  match stepTitle (q "metadata/icy-title") (q "media-title") s with
  | none => s
  | some s' => try1Rest4 q s'

def try1Rest2 (q : String → QueryOutcome) (s : MpvState) : MpvState :=
  match stepPause (q "pause") s with
  | none => s
  | some s' => try1Rest3 q s'

def try1Rest1 (q : String → QueryOutcome) (s : MpvState) : MpvState :=
  match stepMute (q "mute") s with
  | none => s
  | some s' => try1Rest2 q s'

/-- First `try` block: volume, mute, pause, title, time-pos, duration;
an exception anywhere keeps the assignments already made. -/
def gatherTry1 (q : String → QueryOutcome) (s : MpvState) : MpvState :=
  match stepVolume (q "volume") s with
  | none => s
  | some s' => try1Rest1 q s'

/-- `fmt = params.get("format"); if fmt is not None:
state["audio_codec"] = str(fmt).upper()`. -/
def try2Fmt (d : List (String × PyObj)) (s : MpvState) : MpvState :=
  match pyDictGet d "format" with
  | some f => { s with audio_codec := some (pyStrOf f).toUpper }
  | none => s

/-- `sr = params.get("samplerate"); if sr is not None:
state["samplerate_hz"] = int(sr)`; a raising `int(sr)` leaves the state of
the block as already assigned (the exception ends the block). -/
def try2Sr (d : List (String × PyObj)) (s : MpvState) : MpvState :=
  match pyDictGet d "samplerate" with
  | some srv =>
    match pyToInt srv with
    | none => s
    | some n => { s with samplerate_hz := some n }
  | none => s

/-- Second `try` block: `audio-params` (format → codec, samplerate); a
raise out of `int(sr)` keeps the codec already assigned. -/
def gatherTry2 (q : String → QueryOutcome) (s : MpvState) : MpvState :=
  match q "audio-params" with
  | .raised => s
  | .val v =>
    match v with
    | .pyDict d => try2Sr d (try2Fmt d s)
    | _ => s

/-- The bits-per-second → kbps conversion of the third `try` block:
`bps = int(br) if isinstance(br, (int, float)) else 0`, assigned only when
`bps > 0`, as `round(bps / 1000)` (Python float division is exact here and
`round` is nearest-ties-to-even). -/
def bitrateKbps (v : PyObj) : Option Int :=
  let bps : Int := if pyIsNumber v then pyNumTrunc v else 0
  if 0 < bps then some (pyRoundQ ((bps : ℚ) / 1000)) else none

/-- The conditional bitrate assignment on a non-`None` query value. -/
def try3Assign (v : PyObj) (s : MpvState) : MpvState :=
  match bitrateKbps v with
  | some k => { s with audio_bitrate_kbps := some k }
  | none => s

/-- Third `try` block: `audio-bitrate`. -/
def gatherTry3 (q : String → QueryOutcome) (s : MpvState) : MpvState :=
  match q "audio-bitrate" with
  | .raised => s
  | .val .pyNone => s
  | .val v => try3Assign v s

/-- `_gather_mpv_state`: the whole sampler over a per-property outcome
oracle `q` and the call-site arguments. -/
def gatherMpvState (q : String → QueryOutcome)
    (station_name play_mode channel_url source : Option String) : MpvState :=
  gatherTry3 q (gatherTry2 q (gatherTry1 q
    (initialMpvState station_name play_mode channel_url source)))

/-! ## Overlay renderer (src/main.py lines 1763-1966, 2369-2376)

The renderer's terminal writes are collected into an ordered list of
strings (`DrawResult.out`); the module-global `_osd_last_state` and the
JSON favorites store become explicit values passed in and out.  The ANSI
color constants of `class Colors` and the `c()` wrapper are embedded
verbatim. -/

def ansiReset : String := "\x1b[0m"
def ansiDim : String := "\x1b[2m"
def ansiRed : String := "\x1b[31m"
def ansiGreen : String := "\x1b[32m"
def ansiYellow : String := "\x1b[33m"
def ansiBlue : String := "\x1b[34m"
def ansiMagenta : String := "\x1b[35m"
def ansiCyan : String := "\x1b[36m"
def ansiWhite : String := "\x1b[37m"

/-- `c(text, color)` from src/main.py. -/
def cWrap (text color : String) : String := color ++ text ++ ansiReset

/-- Python `"x" * n` for a possibly negative count. -/
def strRepeatI (ch : Char) (n : Int) : String := String.mk (List.replicate n.toNat ch)

/-- Python `s[:n]` for a possibly negative bound (`s[:-k]` drops the last
`k` characters). -/
def pySliceTo (s : String) (n : Int) : String :=
  if 0 ≤ n then s.take n.toNat else s.dropRight (-n).toNat

/-- Python `x or 0` on an `int`. -/
def pyOrInt0 (n : Int) : Int := if n = 0 then 0 else n

/-- Python `x or 0` / `x or 0.0` on a float. -/
def pyOrQ0 (q : ℚ) : ℚ := if q = 0 then 0 else q

/-- `OSD_LOGO_LINES` from src/main.py. -/
def OSD_LOGO_LINES : List String :=
  [ "                       ______            ___       ______  __   "
  , "  _________ ___  ____/ / __ \\____ _____/ (_)___  / __ \\ \\/ /   "
  , " / ___/ __ `__ \\/ __  / /_/ / __ `/ __  / / __ \\/ /_/ /\\  /    "
  , "/ /__/ / / / / / /_/ / _, _/ /_/ / /_/ / / /_/ / ____/ / /     "
  , "\\___/_/ /_/ /_/\\__,_/_/ |_|\\__,_/\\__,_/_/\\____/_/     /_/      " ]

/-- One favorites-store entry (`load_favorites` keeps only dicts carrying
a `url` key; `name`/`source` default to the empty string). -/
structure Fav where
  name : String
  url : String
  source : String
deriving Repr, DecidableEq

/-- `_is_favorite` (src/main.py lines 1815-1820) over an explicit store. -/
def isFavorite (favs : List Fav) (channel_url : String) : Bool :=
  if channel_url = "" then false
  else favs.any (fun f => pyStrip f.url = pyStrip channel_url)

/-- `add_favorite` (src/main.py lines 1174-1190): returns the updated
store and the lines it prints; the JSON file write is assumed to succeed
(I/O errors only add an error print). -/
def addFavorite (favs : List Fav) (name url source : String) :
    List Fav × List String :=
  let name1 := pyStrip name
  let name2 := if name1 = "" then pyStrip url else name1
  let url' := pyStrip url
  let source' := pyStrip source
  if url' = "" then
    (favs, [cWrap "URL inválida, no se puede añadir a favoritos." ansiRed])
  else if favs.any (fun f => pyStrip f.url = url') then
    (favs, [cWrap "Ya está en favoritos." ansiYellow])
  else
    (favs ++ [{ name := name2, url := url', source := source' }],
     [cWrap "Añadido a favoritos." ansiGreen])

/-- `_toggle_favorite` (src/main.py lines 1823-1836): remove when present
(silently), else `add_favorite(station_name or 'Radio', url, None)`;
returns (store, now-favorite?, printed lines). -/
def toggleFavorite (favs : List Fav) (channel_url station_name : String) :
    List Fav × Bool × List String :=
  if channel_url = "" then (favs, false, [])
  else if favs.any (fun f => pyStrip f.url = pyStrip channel_url) then
    (favs.filter (fun f => ¬ pyStrip f.url = pyStrip channel_url), false, [])
  else
    let nameArg := if station_name = "" then "Radio" else station_name
    let r := addFavorite favs nameArg channel_url ""
    (r.1, true, r.2)

/-- The Render Projection: `_osd_display_state` (src/main.py lines
1839-1855), the reduced dict compared before any redraw.  It has no
favorite field, and `time_pos` is truncated to whole seconds
(`int(state.get("time_pos") or 0)`). -/
structure OsdProj where
  play_mode : String
  station_name : String
  media_title : String
  channel_url : String
  source : String
  pause : Bool
  mute : Bool
  volume : Int
  duration : Option ℚ
  time_pos_sec : Int
  audio_codec : Option String
  audio_bitrate_kbps : Option Int
  samplerate_hz : Option Int
deriving Repr, DecidableEq

/-- `_osd_display_state`. -/
def osdDisplayState (s : MpvState) : OsdProj :=
  { play_mode := pyStrip s.play_mode
    station_name := pyStrip s.station_name
    media_title := pyStrip s.media_title
    channel_url := pyStrip s.channel_url
    source := pyStrip s.source
    pause := s.pause
    mute := s.mute
    volume := pyOrInt0 s.volume
    duration := s.duration
    time_pos_sec := pyTruncQ (pyOrQ0 s.time_pos)
    audio_codec := s.audio_codec
    audio_bitrate_kbps := s.audio_bitrate_kbps
    samplerate_hz := s.samplerate_hz }

/-- `draw_osd_progress_bar` (src/main.py lines 2369-2376). -/
def draw_osd_progress_bar (pos total width : Int) : String :=
  if total ≤ 0 ∨ width < 3 then
    "[" ++ strRepeatI ' ' (width - 2) ++ "]"
  else
    let fill := pyTruncQ ((pos : ℚ) / (total : ℚ) * ((width : ℚ) - 2))
    let fill := min fill (width - 2)
    "[" ++ strRepeatI '▓' fill ++ strRepeatI '░' (width - 2 - fill) ++ "]"

/-- The live/unknown-duration branch of the progress line in
`draw_custom_osd`: elapsed time plus an indeterminate marker. -/
def osdLiveLine (time_pos : ℚ) (w : Nat) : String :=
  cWrap ("  " ++ fmtHmsQ time_pos ++ "  ") ansiDim ++
  cWrap (strRepeatI '─' (min 20 (w / 3) : Nat) ++ "  En directo") ansiBlue

/-- The progress line of `draw_custom_osd` (src/main.py lines 1893-1906):
a clamped bar plus `elapsed / total` for a known positive duration, the
live line otherwise. -/
def osdProgressLine (time_pos : ℚ) (duration : Option ℚ) (w : Nat) : String :=
  match duration with
  | some d =>
    if 0 < d then
      let total := pyTruncQ d
      let pos := pyTruncQ time_pos
      let bar := draw_osd_progress_bar pos total (min 40 ((w : Int) - 25))
      cWrap (bar ++ "  " ++ fmtHmsQ time_pos ++ " / " ++ fmtHmsQ d) ansiBlue
    else osdLiveLine time_pos w
  | none => osdLiveLine time_pos w

/-- The 19 panel lines assembled by `draw_custom_osd` (`lines_out`),
using the repository's fallback `Icon` glyphs. -/
def osdLines (favs : List Fav) (state : MpvState) (w : Nat) : List String :=
  let time_pos := pyOrQ0 state.time_pos
  let mode :=
    if pyStrip state.play_mode = "" then "Normal" else pyStrip state.play_mode
  let station := pyStrip state.station_name
  let channel_url := state.channel_url
  let source := pyStrip state.source
  let is_fav := if channel_url ≠ "" then isFavorite favs channel_url else false
  let fav_icon := if is_fav then "⭐" else "☆"
  let station_line :=
    "  " ++ fav_icon ++ " " ++ (if station = "" then "Reproduciendo" else station)
  let source_line :=
    if source ≠ "" ∧ (source.toLower.endsWith ".m3u" ∨ source.toLower.endsWith ".m3u8")
    then "  M3U: " ++ source else ""
  let title := pyStrip state.media_title
  let now_line :=
    "  Ahora suena: " ++ (if title = "" then "—" else pySliceTo title ((w : Int) - 18))
  let vol := pyOrInt0 state.volume
  let pause_line := if state.pause then "  [ PAUSADO ]" else "  "
  let play_icon := if state.pause then "⏸" else "▶"
  let mute_icon := if state.mute then "🔇" else "🔈"
  let p_btn := cWrap (play_icon ++ " Pausa") (if state.pause then ansiGreen else ansiWhite)
  let m_btn := cWrap (mute_icon ++ " Mute") (if state.mute then ansiGreen else ansiWhite)
  let q_btn := cWrap "[Q] Salir" ansiMagenta
  let btns := "  " ++ p_btn ++ "  [+] Vol+  [-] Vol-  " ++ m_btn ++
    "  Vol:" ++ toString vol ++ "  [F] Fav  " ++ q_btn
  OSD_LOGO_LINES.map (fun l => cWrap l ansiCyan) ++
  [""] ++
  [osdProgressLine time_pos state.duration w] ++
  [cWrap (strRepeatI '─' (w : Int)) ansiDim] ++
  [""] ++
  [cWrap (("  Modo: " ++ mode).take w) ansiGreen] ++
  [""] ++
  [cWrap (station_line.take w) ansiWhite] ++
  [if source_line = "" then "" else cWrap (source_line.take w) ansiDim] ++
  [""] ++
  [cWrap (now_line.take w) ansiMagenta] ++
  [""] ++
  [cWrap (pause_line.take w) (if state.pause then ansiGreen else ansiDim)] ++
  [""] ++
  [cWrap (btns.take w) ansiYellow]

/-- Result of one renderer call: the favorites store, the module-global
`_osd_last_state`, and the ordered stdout writes of the call. -/
structure DrawResult where
  favs : List Fav
  last : Option OsdProj
  out : List String
deriving Repr, DecidableEq

/-- `draw_custom_osd` (src/main.py lines 1858-1966).  `w` is the terminal
width; favorite toggling happens before the anti-flicker skip check, whose
condition is `not first_time and _osd_last_state is not None and
display == _osd_last_state`.  On a redraw, panel lines are written with an
erase-to-end suffix, preceded by clear-screen on the first frame and by a
19-line cursor-up repositioning afterwards. -/
def draw_custom_osd (favs : List Fav) (last : Option OsdProj) (w : Nat)
    (state : MpvState) (first_time : Bool) (key : Option String) : DrawResult :=
  let tog :=
    if key = some "f" ∧ state.channel_url ≠ "" then
      toggleFavorite favs state.channel_url state.station_name
    else (favs, false, [])
  let favs' := tog.1
  let togOut := tog.2.2
  let display := osdDisplayState state
  if first_time = false ∧ last.isSome ∧ last = some display then
    { favs := favs', last := last, out := togOut }
  else
    let clearOut := if first_time then ["\x1b[2J\x1b[H"] else []
    let upOut := if first_time then [] else ["\x1b[19A"]
    { favs := favs'
      last := some display
      out := togOut ++ clearOut ++ upOut ++
        (osdLines favs' state w).map (fun l => l ++ "\x1b[K\n") }

/-! ## Session connect phase (src/player.py lines 343-365)

`play_url_with_custom_osd` in idle-then-load mode (`use_idle_then_load`
true): spawn, then poll `_ipc_connect` for 40 attempts.  The environment
is abstracted as: the per-attempt connect results, whether the process is
still running at the failure check, and the `proc.returncode` observed
after `kill()`/`wait()` (`none` when even that failed to produce one). -/

/-- The 40-attempt connect-with-retry loop. -/
def ipcConnectLoop (results : Nat → Option Unit) : Option Unit :=
  go 40 0
where
  go : Nat → Nat → Option Unit
    | 0, _ => none
    | fuel + 1, i =>
      match results i with
      | some c => some c
      | none => go fuel (i + 1)

/-- Observable outcome of the session's connect phase. -/
structure SessionOutcome where
  killed : Bool
  panelsDrawn : Nat
  exitCode : Int
deriving Repr, DecidableEq

/-- The connect phase of `play_url_with_custom_osd` with
`use_idle_then_load = True`.  On connect failure with the process still
running: `proc.kill()`, and the return value is
`proc.returncode if proc.returncode is not None else 1`; no OSD callback
has been invoked at that point.  When the process already exited, the
code falls into the no-OSD fallback whose keyboard loop body never runs,
returning `proc.returncode or 0` without drawing.  A successful connect
continues into the OSD session loop, abstracted as `osdSessionRest`. -/
def idleSessionConnPhase (connects : Nat → Option Unit) (running : Bool)
    (rcAfterKill : Option Int) (rcExited : Int)
    (osdSessionRest : SessionOutcome) : SessionOutcome :=
  match ipcConnectLoop connects with
  | some _ => osdSessionRest
  | none =>
    if running then
      { killed := true, panelsDrawn := 0, exitCode := rcAfterKill.getD 1 }
    else
      { killed := false, panelsDrawn := 0
        exitCode := if rcExited = 0 then 0 else rcExited }

/-! ## Theorems -/

/-- C6: the time formatter renders `0` as `"00:00"`, `65` as `"01:05"`,
`3725` as `"01:02:05"` and `-1` as `"00:00"`; but on a non-numeric input
such as the string `"abc"` the source raises `TypeError` (the comparison
`seconds < 0` runs before the `isinstance` guard that was meant to catch
non-numeric input), instead of returning `"00:00"` as specified. -/
theorem c6_format_time_hms :
    formatTimeHms (.pyInt 0) = .ok "00:00" ∧
    formatTimeHms (.pyInt 65) = .ok "01:05" ∧
    formatTimeHms (.pyInt 3725) = .ok "01:02:05" ∧
    formatTimeHms (.pyInt (-1)) = .ok "00:00" ∧
    formatTimeHms (.pyStr "abc") = .error "TypeError" :=
  ⟨rfl, rfl, rfl, rfl, rfl⟩

/-- Python's `round` lands within half a unit of its argument. -/
theorem pyRoundQ_nearest (q : ℚ) : |q - (pyRoundQ q : ℚ)| ≤ 1/2 := by
  unfold pyRoundQ
  have h0 : ((⌊q⌋ : Int) : ℚ) ≤ q := Int.floor_le q
  have h1 : q < ((⌊q⌋ : Int) : ℚ) + 1 := Int.lt_floor_add_one q
  dsimp only
  split_ifs <;> rw [abs_le] <;> constructor <;> push_cast <;> linarith

/-- `round` is the identity on integers. -/
theorem pyRoundQ_intCast (n : Int) : pyRoundQ ((n : Int) : ℚ) = n := by
  unfold pyRoundQ
  dsimp only
  rw [Int.floor_intCast]
  norm_num

/-- C7: bitrate conversion divides the engine's bits-per-second value by
1000 rounding to nearest (Python `round`): `128000` → `128` kbps, `0` →
unknown (`none`) rather than `0`, and every positive input maps to a
nearest integer of `bps / 1000` (within 500 bits/s). -/
theorem c7_bitrate_conversion :
    bitrateKbps (.pyInt 128000) = some 128 ∧
    bitrateKbps (.pyInt 0) = none ∧
    ∀ bps : Int, 0 < bps →
      bitrateKbps (.pyInt bps) = some (pyRoundQ ((bps : ℚ) / 1000)) ∧
      |(bps : ℚ) - 1000 * (pyRoundQ ((bps : ℚ) / 1000) : ℚ)| ≤ 500 := by
  have hgen : ∀ bps : Int, 0 < bps →
      bitrateKbps (.pyInt bps) = some (pyRoundQ ((bps : ℚ) / 1000)) := by
    intro bps hpos
    simp [bitrateKbps, pyIsNumber, pyNumTrunc, hpos]
  refine ⟨?_, by simp [bitrateKbps, pyIsNumber, pyNumTrunc], fun bps hpos => ⟨hgen bps hpos, ?_⟩⟩
  · rw [hgen 128000 (by norm_num)]
    have h128 : ((128000 : Int) : ℚ) / 1000 = ((128 : Int) : ℚ) := by norm_num
    rw [h128, pyRoundQ_intCast]
  · have h := pyRoundQ_nearest ((bps : ℚ) / 1000)
    have heq : (bps : ℚ) - 1000 * (pyRoundQ ((bps : ℚ) / 1000) : ℚ) =
        1000 * ((bps : ℚ) / 1000 - (pyRoundQ ((bps : ℚ) / 1000) : ℚ)) := by ring
    rw [heq, abs_mul, abs_of_pos (show (0:ℚ) < 1000 by norm_num)]
    linarith [abs_nonneg ((bps : ℚ) / 1000 - (pyRoundQ ((bps : ℚ) / 1000) : ℚ))]

theorem c7_witness :
    bitrateKbps (.pyInt 128000) = some (pyRoundQ (((128000 : Int) : ℚ) / 1000)) ∧
    |((128000 : Int) : ℚ) - 1000 * (pyRoundQ (((128000 : Int) : ℚ) / 1000) : ℚ)| ≤ 500 :=
  c7_bitrate_conversion.2.2 128000 (by norm_num)

/-- The correlator's receive loop never performs more receives than its
fuel allows. -/
theorem ipcGetPropertyLoop_count_le (reqId : Int) (recvs : Nat → Option IpcMsg) :
    ∀ fuel i, (ipcGetPropertyLoop reqId recvs fuel i).2 ≤ fuel := by
  intro fuel
  induction fuel with
  | zero => intro i; simp [ipcGetPropertyLoop]
  | succ n ih =>
    intro i
    unfold ipcGetPropertyLoop
    cases recvs i with
    | none => simp
    | some resp =>
      by_cases he : resp.isEmpty
      · simp [he]
      · by_cases hm : envReqIdMatches resp reqId && envHasData resp
        · simp [he, hm]
        · simpa [he, hm] using Nat.succ_le_succ (ih (i + 1))

/-- If no receive within the window is the matching response, the loop
returns Python `None`. -/
theorem ipcGetPropertyLoop_no_match (reqId : Int) (recvs : Nat → Option IpcMsg) :
    ∀ fuel i, (∀ j, i ≤ j → j < i + fuel → envIsMatch reqId (recvs j) = false) →
      (ipcGetPropertyLoop reqId recvs fuel i).1 = .pyNone := by
  intro fuel
  induction fuel with
  | zero => intro i _; simp [ipcGetPropertyLoop]
  | succ n ih =>
    intro i h
    unfold ipcGetPropertyLoop
    have hi := h i (Nat.le_refl i) (by omega)
    cases hr : recvs i with
    | none => simp
    | some resp =>
      rw [hr] at hi
      have hm : (envReqIdMatches resp reqId && envHasData resp) = false := hi
      by_cases he : resp.isEmpty
      · simp [he]
      · simp only [he, hm, if_false, Bool.false_eq_true]
        exact ih (i + 1) (fun j h1 h2 => h j (by omega) (by omega))

/-- C3: a query whose identifier never receives a matching response within
the attempt budget yields Python `None` after at most 12 receives; event
envelopes and mismatched responses are consumed and discarded along the
way, and no exception is raised (the embedding is a total function whose
only failure value is `pyNone`). -/
theorem c3_correlator_budget (reqId : Int) (recvs : Nat → Option IpcMsg)
    (h : ∀ i, i < 12 → envIsMatch reqId (recvs i) = false) :
    (ipcGetProperty reqId recvs).1 = .pyNone ∧
    (ipcGetProperty reqId recvs).2 ≤ 12 :=
  ⟨ipcGetPropertyLoop_no_match reqId recvs 12 0 (fun j _ h2 => h j (by omega)),
   ipcGetPropertyLoop_count_le reqId recvs 12 0⟩

theorem c3_witness :
    (ipcGetProperty 7 (fun _ => some [("event", .pyStr "idle")])).1 = .pyNone ∧
    (ipcGetProperty 7 (fun _ => some [("event", .pyStr "idle")])).2 ≤ 12 :=
  c3_correlator_budget 7 _ (by decide)

/-- Whether one read step is anything but a newline byte. -/
def notNewline (r : ReadResult) : Bool :=
  match r with
  | .byte 10 => false
  | _ => true

theorem recvLoop_no_newline (parse : List Nat → Option IpcMsg) :
    ∀ (reads : List ReadResult) (acc : List Nat),
      reads.all notNewline = true → recvLoop parse reads acc = none := by
  intro reads
  induction reads with
  | nil => intro acc _; rfl
  | cons r rest ih =>
    intro acc hall
    rw [List.all_cons, Bool.and_eq_true] at hall
    cases r with
    | byte b =>
      have hb : b ≠ 10 := by
        intro hb; rw [hb] at hall; exact absurd hall.1 (by simp [notNewline])
      simpa [recvLoop, hb] using ih (acc ++ [b]) hall.2
    | closed => rfl
    | timedOut => rfl
    | ioError => rfl

theorem recvLoop_closed (parse : List Nat → Option IpcMsg) :
    ∀ (pre : List ReadResult) (post : List ReadResult) (acc : List Nat),
      pre.all notNewline = true →
      recvLoop parse (pre ++ .closed :: post) acc = none := by
  intro pre
  induction pre with
  | nil => intro post acc _; rfl
  | cons r rest ih =>
    intro post acc hall
    rw [List.all_cons, Bool.and_eq_true] at hall
    cases r with
    | byte b =>
      have hb : b ≠ 10 := by
        intro hb; rw [hb] at hall; exact absurd hall.1 (by simp [notNewline])
      simpa [recvLoop, hb] using ih post (acc ++ [b]) hall.2
    | closed => rfl
    | timedOut => rfl
    | ioError => rfl

theorem recvLoop_frame (parse : List Nat → Option IpcMsg) :
    ∀ (bs : List Nat) (post : List ReadResult) (acc : List Nat),
      (∀ b ∈ bs, b ≠ 10) →
      recvLoop parse (bs.map .byte ++ .byte 10 :: post) acc = parse (acc ++ bs ++ [10]) := by
  intro bs
  induction bs with
  | nil => intro post acc _; simp [recvLoop]
  | cons b rest ih =>
    intro post acc h
    have hb : b ≠ 10 := h b (List.mem_cons_self b rest)
    have := ih post (acc ++ [b]) (fun x hx => h x (List.mem_cons_of_mem b hx))
    simpa [recvLoop, hb, List.append_assoc] using this

/-- C4: the envelope decoder `_ipc_recv` fails soft for every malformed or
partial input — a read sequence with no newline (truncated frame or
timeout), a channel closure before the frame completes, and a complete
frame whose JSON parse fails all yield the recoverable `none`; the
embedding is a total function, so no exception escapes. -/
theorem c4_recv_fail_soft :
    (∀ (parse : List Nat → Option IpcMsg) (reads : List ReadResult),
      reads.all notNewline = true → ipcRecv parse reads = none) ∧
    (∀ (parse : List Nat → Option IpcMsg) (pre post : List ReadResult),
      pre.all notNewline = true → ipcRecv parse (pre ++ .closed :: post) = none) ∧
    (∀ (parse : List Nat → Option IpcMsg) (bs : List Nat) (post : List ReadResult),
      (∀ b ∈ bs, b ≠ 10) → parse (bs ++ [10]) = none →
      ipcRecv parse (bs.map .byte ++ .byte 10 :: post) = none) := by
  refine ⟨fun parse reads h => recvLoop_no_newline parse reads [] h,
    fun parse pre post h => recvLoop_closed parse pre post [] h,
    fun parse bs post h hp => ?_⟩
  rw [ipcRecv, recvLoop_frame parse bs post [] h]
  simpa using hp

theorem c4_witness :
    ipcRecv (fun _ => some []) [.byte 123, .timedOut] = none ∧
    ipcRecv (fun _ => some []) ([.byte 123] ++ .closed :: [.byte 10]) = none ∧
    ipcRecv (fun _ => none) ([123].map .byte ++ .byte 10 :: []) = none :=
  ⟨c4_recv_fail_soft.1 _ _ (by decide),
   c4_recv_fail_soft.2.1 _ _ _ (by decide),
   c4_recv_fail_soft.2.2 _ [123] [] (by decide) rfl⟩

/-- A failed property query: `_ipc_get_property` raised, or returned
Python `None` (timeout, mismatch, or a null/absent property value). -/
def qFailsB : QueryOutcome → Bool
  | .raised => true
  | .val .pyNone => true
  | .val _ => false

theorem stepVolume_shape (r : QueryOutcome) (s s' : MpvState)
    (h : stepVolume r s = some s') : ∃ v, s' = { s with volume := v } := by
  cases r with
  | raised => simp [stepVolume] at h
  | val v =>
    cases v <;> simp only [stepVolume, Option.some.injEq] at h <;>
      exact ⟨_, h.symm⟩

theorem stepMute_shape (r : QueryOutcome) (s s' : MpvState)
    (h : stepMute r s = some s') : ∃ v, s' = { s with mute := v } := by
  cases r with
  | raised => simp [stepMute] at h
  | val v => exact ⟨_, (Option.some.inj h).symm⟩

theorem stepPause_shape (r : QueryOutcome) (s s' : MpvState)
    (h : stepPause r s = some s') : ∃ v, s' = { s with pause := v } := by
  cases r with
  | raised => simp [stepPause] at h
  | val v => exact ⟨_, (Option.some.inj h).symm⟩

theorem stepTitle_shape (r1 r2 : QueryOutcome) (s s' : MpvState)
    (h : stepTitle r1 r2 s = some s') : ∃ t, s' = { s with media_title := t } := by
  cases r1 with
  | raised => simp [stepTitle] at h
  | val icy =>
    unfold stepTitle at h
    dsimp only at h
    split at h
    · exact ⟨_, (Option.some.inj h).symm⟩
    · cases r2 with
      | raised => simp at h
      | val t =>
        cases t <;> simp only [Option.some.injEq] at h <;> exact ⟨_, h.symm⟩

theorem stepTimePos_shape (r : QueryOutcome) (s s' : MpvState)
    (h : stepTimePos r s = some s') : ∃ v, s' = { s with time_pos := v } := by
  unfold stepTimePos at h
  split at h
  · exact absurd h (by simp)
  · exact ⟨_, (Option.some.inj h).symm⟩
  · split at h
    · exact absurd h (by simp)
    · exact ⟨_, (Option.some.inj h).symm⟩

theorem stepDuration_shape (r : QueryOutcome) (s s' : MpvState)
    (h : stepDuration r s = some s') : ∃ v, s' = { s with duration := v } := by
  unfold stepDuration at h
  split at h
  · exact absurd h (by simp)
  · exact ⟨_, (Option.some.inj h).symm⟩
  · split at h
    · exact absurd h (by simp)
    · exact ⟨_, (Option.some.inj h).symm⟩

theorem try1Rest5_shape (q : String → QueryOutcome) (s : MpvState) :
    ∃ d, try1Rest5 q s = { s with duration := d } := by
  unfold try1Rest5
  cases h : stepDuration (q "duration") s with
  | none => exact ⟨s.duration, rfl⟩
  | some s' =>
    obtain ⟨d, rfl⟩ := stepDuration_shape _ _ _ h
    exact ⟨d, rfl⟩

theorem try1Rest4_shape (q : String → QueryOutcome) (s : MpvState) :
    ∃ tp d, try1Rest4 q s = { s with time_pos := tp, duration := d } := by
  unfold try1Rest4
  cases h : stepTimePos (q "time-pos") s with
  | none => exact ⟨s.time_pos, s.duration, rfl⟩
  | some s' =>
    obtain ⟨tp, rfl⟩ := stepTimePos_shape _ _ _ h
    obtain ⟨d, hd⟩ := try1Rest5_shape q { s with time_pos := tp }
    exact ⟨tp, d, hd⟩

theorem try1Rest3_shape (q : String → QueryOutcome) (s : MpvState) :
    ∃ ti tp d, try1Rest3 q s =
      { s with media_title := ti, time_pos := tp, duration := d } := by
  unfold try1Rest3
  cases h : stepTitle (q "metadata/icy-title") (q "media-title") s with
  | none => exact ⟨s.media_title, s.time_pos, s.duration, rfl⟩
  | some s' =>
    obtain ⟨ti, rfl⟩ := stepTitle_shape _ _ _ _ h
    obtain ⟨tp, d, hd⟩ := try1Rest4_shape q { s with media_title := ti }
    exact ⟨ti, tp, d, hd⟩

theorem try1Rest2_shape (q : String → QueryOutcome) (s : MpvState) :
    ∃ p ti tp d, try1Rest2 q s =
      { s with pause := p, media_title := ti, time_pos := tp, duration := d } := by
  unfold try1Rest2
  cases h : stepPause (q "pause") s with
  | none => exact ⟨s.pause, s.media_title, s.time_pos, s.duration, rfl⟩
  | some s' =>
    obtain ⟨p, rfl⟩ := stepPause_shape _ _ _ h
    obtain ⟨ti, tp, d, hd⟩ := try1Rest3_shape q { s with pause := p }
    exact ⟨p, ti, tp, d, hd⟩

theorem try1Rest1_shape (q : String → QueryOutcome) (s : MpvState) :
    ∃ m p ti tp d, try1Rest1 q s =
      { s with mute := m, pause := p, media_title := ti, time_pos := tp,
               duration := d } := by
  unfold try1Rest1
  cases h : stepMute (q "mute") s with
  | none => exact ⟨s.mute, s.pause, s.media_title, s.time_pos, s.duration, rfl⟩
  | some s' =>
    obtain ⟨m, rfl⟩ := stepMute_shape _ _ _ h
    obtain ⟨p, ti, tp, d, hd⟩ := try1Rest2_shape q { s with mute := m }
    exact ⟨m, p, ti, tp, d, hd⟩

theorem gatherTry1_shape (q : String → QueryOutcome) (s : MpvState) :
    ∃ v m p ti tp d, gatherTry1 q s =
      { s with volume := v, mute := m, pause := p, media_title := ti,
               time_pos := tp, duration := d } := by
  unfold gatherTry1
  cases h : stepVolume (q "volume") s with
  | none =>
    exact ⟨s.volume, s.mute, s.pause, s.media_title, s.time_pos, s.duration, rfl⟩
  | some s' =>
    obtain ⟨v, rfl⟩ := stepVolume_shape _ _ _ h
    obtain ⟨m, p, ti, tp, d, hd⟩ := try1Rest1_shape q { s with volume := v }
    exact ⟨v, m, p, ti, tp, d, hd⟩

theorem try2Fmt_shape (d : List (String × PyObj)) (s : MpvState) :
    ∃ c, try2Fmt d s = { s with audio_codec := c } := by
  unfold try2Fmt
  cases pyDictGet d "format" with
  | none => exact ⟨s.audio_codec, rfl⟩
  | some f => exact ⟨some (pyStrOf f).toUpper, rfl⟩

theorem try2Sr_shape (d : List (String × PyObj)) (s : MpvState) :
    ∃ sr, try2Sr d s = { s with samplerate_hz := sr } := by
  unfold try2Sr
  split
  · split
    · exact ⟨s.samplerate_hz, rfl⟩
    · exact ⟨_, rfl⟩
  · exact ⟨s.samplerate_hz, rfl⟩

theorem gatherTry2_shape (q : String → QueryOutcome) (s : MpvState) :
    ∃ c sr, gatherTry2 q s = { s with audio_codec := c, samplerate_hz := sr } := by
  unfold gatherTry2
  cases q "audio-params" with
  | raised => exact ⟨s.audio_codec, s.samplerate_hz, rfl⟩
  | val v =>
    cases v with
    | pyDict d =>
      obtain ⟨c, hc⟩ := try2Fmt_shape d s
      obtain ⟨sr, hsr⟩ := try2Sr_shape d (try2Fmt d s)
      refine ⟨c, sr, ?_⟩
      show try2Sr d (try2Fmt d s) = _
      rw [hsr, hc]
    | pyNone => exact ⟨s.audio_codec, s.samplerate_hz, rfl⟩
    | pyBool b => exact ⟨s.audio_codec, s.samplerate_hz, rfl⟩
    | pyInt n => exact ⟨s.audio_codec, s.samplerate_hz, rfl⟩
    | pyFloat x => exact ⟨s.audio_codec, s.samplerate_hz, rfl⟩
    | pyStr x => exact ⟨s.audio_codec, s.samplerate_hz, rfl⟩
    | pyArr xs => exact ⟨s.audio_codec, s.samplerate_hz, rfl⟩

theorem try3Assign_shape (v : PyObj) (s : MpvState) :
    ∃ b, try3Assign v s = { s with audio_bitrate_kbps := b } := by
  unfold try3Assign
  cases bitrateKbps v with
  | none => exact ⟨s.audio_bitrate_kbps, rfl⟩
  | some k => exact ⟨some k, rfl⟩

theorem gatherTry3_shape (q : String → QueryOutcome) (s : MpvState) :
    ∃ b, gatherTry3 q s = { s with audio_bitrate_kbps := b } := by
  unfold gatherTry3
  cases q "audio-bitrate" with
  | raised => exact ⟨s.audio_bitrate_kbps, rfl⟩
  | val v =>
    cases v with
    | pyNone => exact ⟨s.audio_bitrate_kbps, rfl⟩
    | pyBool b => exact try3Assign_shape _ s
    | pyInt n => exact try3Assign_shape _ s
    | pyFloat x => exact try3Assign_shape _ s
    | pyStr x => exact try3Assign_shape _ s
    | pyArr xs => exact try3Assign_shape _ s
    | pyDict d => exact try3Assign_shape _ s

theorem gatherTry23_shape (q : String → QueryOutcome) (s : MpvState) :
    ∃ c sr b, gatherTry3 q (gatherTry2 q s) =
      { s with audio_codec := c, samplerate_hz := sr, audio_bitrate_kbps := b } := by
  obtain ⟨c, sr, h2⟩ := gatherTry2_shape q s
  obtain ⟨b, h3⟩ := gatherTry3_shape q (gatherTry2 q s)
  exact ⟨c, sr, b, by rw [h3, h2]⟩

theorem try1Rest5_duration_none (q : String → QueryOutcome) (s : MpvState)
    (h : qFailsB (q "duration") = true) (hs : s.duration = none) :
    (try1Rest5 q s).duration = none := by
  unfold try1Rest5
  cases hq : q "duration" with
  | raised => exact hs
  | val v =>
    rw [hq] at h
    cases v with
    | pyNone => rfl
    | pyBool b => simp [qFailsB] at h
    | pyInt n => simp [qFailsB] at h
    | pyFloat x => simp [qFailsB] at h
    | pyStr x => simp [qFailsB] at h
    | pyArr xs => simp [qFailsB] at h
    | pyDict xs => simp [qFailsB] at h

theorem try1Rest4_duration_none (q : String → QueryOutcome) (s : MpvState)
    (h : qFailsB (q "duration") = true) (hs : s.duration = none) :
    (try1Rest4 q s).duration = none := by
  unfold try1Rest4
  cases hstep : stepTimePos (q "time-pos") s with
  | none => exact hs
  | some s1 =>
    obtain ⟨x, rfl⟩ := stepTimePos_shape _ _ _ hstep
    exact try1Rest5_duration_none q _ h hs

theorem try1Rest3_duration_none (q : String → QueryOutcome) (s : MpvState)
    (h : qFailsB (q "duration") = true) (hs : s.duration = none) :
    (try1Rest3 q s).duration = none := by
  unfold try1Rest3
  cases hstep : stepTitle (q "metadata/icy-title") (q "media-title") s with
  | none => exact hs
  | some s1 =>
    obtain ⟨x, rfl⟩ := stepTitle_shape _ _ _ _ hstep
    exact try1Rest4_duration_none q _ h hs

theorem try1Rest2_duration_none (q : String → QueryOutcome) (s : MpvState)
    (h : qFailsB (q "duration") = true) (hs : s.duration = none) :
    (try1Rest2 q s).duration = none := by
  unfold try1Rest2
  cases hstep : stepPause (q "pause") s with
  | none => exact hs
  | some s1 =>
    obtain ⟨x, rfl⟩ := stepPause_shape _ _ _ hstep
    exact try1Rest3_duration_none q _ h hs

theorem try1Rest1_duration_none (q : String → QueryOutcome) (s : MpvState)
    (h : qFailsB (q "duration") = true) (hs : s.duration = none) :
    (try1Rest1 q s).duration = none := by
  unfold try1Rest1
  cases hstep : stepMute (q "mute") s with
  | none => exact hs
  | some s1 =>
    obtain ⟨x, rfl⟩ := stepMute_shape _ _ _ hstep
    exact try1Rest2_duration_none q _ h hs

theorem gatherTry1_duration_none (q : String → QueryOutcome) (s : MpvState)
    (h : qFailsB (q "duration") = true) (hs : s.duration = none) :
    (gatherTry1 q s).duration = none := by
  unfold gatherTry1
  cases hstep : stepVolume (q "volume") s with
  | none => exact hs
  | some s1 =>
    obtain ⟨x, rfl⟩ := stepVolume_shape _ _ _ hstep
    exact try1Rest1_duration_none q _ h hs

theorem try1Rest4_time_zero (q : String → QueryOutcome) (s : MpvState)
    (h : qFailsB (q "time-pos") = true) (hs : s.time_pos = 0) :
    (try1Rest4 q s).time_pos = 0 := by
  unfold try1Rest4
  cases hq : q "time-pos" with
  | raised => exact hs
  | val v =>
    rw [hq] at h
    cases v with
    | pyNone =>
      show (try1Rest5 q { s with time_pos := 0 }).time_pos = 0
      obtain ⟨d, h5⟩ := try1Rest5_shape q { s with time_pos := 0 }
      rw [h5]
    | pyBool b => simp [qFailsB] at h
    | pyInt n => simp [qFailsB] at h
    | pyFloat x => simp [qFailsB] at h
    | pyStr x => simp [qFailsB] at h
    | pyArr xs => simp [qFailsB] at h
    | pyDict xs => simp [qFailsB] at h

theorem try1Rest3_time_zero (q : String → QueryOutcome) (s : MpvState)
    (h : qFailsB (q "time-pos") = true) (hs : s.time_pos = 0) :
    (try1Rest3 q s).time_pos = 0 := by
  unfold try1Rest3
  cases hstep : stepTitle (q "metadata/icy-title") (q "media-title") s with
  | none => exact hs
  | some s1 =>
    obtain ⟨x, rfl⟩ := stepTitle_shape _ _ _ _ hstep
    exact try1Rest4_time_zero q _ h hs

theorem try1Rest2_time_zero (q : String → QueryOutcome) (s : MpvState)
    (h : qFailsB (q "time-pos") = true) (hs : s.time_pos = 0) :
    (try1Rest2 q s).time_pos = 0 := by
  unfold try1Rest2
  cases hstep : stepPause (q "pause") s with
  | none => exact hs
  | some s1 =>
    obtain ⟨x, rfl⟩ := stepPause_shape _ _ _ hstep
    exact try1Rest3_time_zero q _ h hs

theorem try1Rest1_time_zero (q : String → QueryOutcome) (s : MpvState)
    (h : qFailsB (q "time-pos") = true) (hs : s.time_pos = 0) :
    (try1Rest1 q s).time_pos = 0 := by
  unfold try1Rest1
  cases hstep : stepMute (q "mute") s with
  | none => exact hs
  | some s1 =>
    obtain ⟨x, rfl⟩ := stepMute_shape _ _ _ hstep
    exact try1Rest2_time_zero q _ h hs

theorem gatherTry1_time_zero (q : String → QueryOutcome) (s : MpvState)
    (h : qFailsB (q "time-pos") = true) (hs : s.time_pos = 0) :
    (gatherTry1 q s).time_pos = 0 := by
  unfold gatherTry1
  cases hstep : stepVolume (q "volume") s with
  | none => exact hs
  | some s1 =>
    obtain ⟨x, rfl⟩ := stepVolume_shape _ _ _ hstep
    exact try1Rest1_time_zero q _ h hs

theorem try1Rest3_title_blank (q : String → QueryOutcome) (s : MpvState)
    (h1 : qFailsB (q "metadata/icy-title") = true)
    (h2 : qFailsB (q "media-title") = true) (hs : s.media_title = "") :
    (try1Rest3 q s).media_title = "" := by
  unfold try1Rest3
  cases hq1 : q "metadata/icy-title" with
  | raised => exact hs
  | val icy =>
    rw [hq1] at h1
    cases icy with
    | pyNone =>
      show (match stepTitle (.val .pyNone) (q "media-title") s with
            | none => s
            | some s' => try1Rest4 q s').media_title = ""
      unfold stepTitle
      cases hq2 : q "media-title" with
      | raised => exact hs
      | val t =>
        rw [hq2] at h2
        cases t with
        | pyNone =>
          obtain ⟨tp, d, h4⟩ := try1Rest4_shape q { s with media_title := "" }
          show (try1Rest4 q { s with media_title := "" }).media_title = ""
          rw [h4]
        | pyBool b => simp [qFailsB] at h2
        | pyInt n => simp [qFailsB] at h2
        | pyFloat x => simp [qFailsB] at h2
        | pyStr x => simp [qFailsB] at h2
        | pyArr xs => simp [qFailsB] at h2
        | pyDict xs => simp [qFailsB] at h2
    | pyBool b => simp [qFailsB] at h1
    | pyInt n => simp [qFailsB] at h1
    | pyFloat x => simp [qFailsB] at h1
    | pyStr x => simp [qFailsB] at h1
    | pyArr xs => simp [qFailsB] at h1
    | pyDict xs => simp [qFailsB] at h1

theorem try1Rest2_title_blank (q : String → QueryOutcome) (s : MpvState)
    (h1 : qFailsB (q "metadata/icy-title") = true)
    (h2 : qFailsB (q "media-title") = true) (hs : s.media_title = "") :
    (try1Rest2 q s).media_title = "" := by
  unfold try1Rest2
  cases hstep : stepPause (q "pause") s with
  | none => exact hs
  | some s1 =>
    obtain ⟨x, rfl⟩ := stepPause_shape _ _ _ hstep
    exact try1Rest3_title_blank q _ h1 h2 hs

theorem try1Rest1_title_blank (q : String → QueryOutcome) (s : MpvState)
    (h1 : qFailsB (q "metadata/icy-title") = true)
    (h2 : qFailsB (q "media-title") = true) (hs : s.media_title = "") :
    (try1Rest1 q s).media_title = "" := by
  unfold try1Rest1
  cases hstep : stepMute (q "mute") s with
  | none => exact hs
  | some s1 =>
    obtain ⟨x, rfl⟩ := stepMute_shape _ _ _ hstep
    exact try1Rest2_title_blank q _ h1 h2 hs

theorem gatherTry1_title_blank (q : String → QueryOutcome) (s : MpvState)
    (h1 : qFailsB (q "metadata/icy-title") = true)
    (h2 : qFailsB (q "media-title") = true) (hs : s.media_title = "") :
    (gatherTry1 q s).media_title = "" := by
  unfold gatherTry1
  cases hstep : stepVolume (q "volume") s with
  | none => exact hs
  | some s1 =>
    obtain ⟨x, rfl⟩ := stepVolume_shape _ _ _ hstep
    exact try1Rest1_title_blank q _ h1 h2 hs

theorem try1Rest2_pause_false (q : String → QueryOutcome) (s : MpvState)
    (h : qFailsB (q "pause") = true) (hs : s.pause = false) :
    (try1Rest2 q s).pause = false := by
  unfold try1Rest2
  cases hq : q "pause" with
  | raised => exact hs
  | val v =>
    rw [hq] at h
    have hv : pyTruthy v = false := by
      cases v with
      | pyNone => rfl
      | pyBool b => simp [qFailsB] at h
      | pyInt n => simp [qFailsB] at h
      | pyFloat x => simp [qFailsB] at h
      | pyStr x => simp [qFailsB] at h
      | pyArr xs => simp [qFailsB] at h
      | pyDict xs => simp [qFailsB] at h
    show (try1Rest3 q { s with pause := pyTruthy v }).pause = false
    obtain ⟨ti, tp, d, h3⟩ := try1Rest3_shape q { s with pause := pyTruthy v }
    rw [h3]
    exact hv

theorem try1Rest1_pause_false (q : String → QueryOutcome) (s : MpvState)
    (h : qFailsB (q "pause") = true) (hs : s.pause = false) :
    (try1Rest1 q s).pause = false := by
  unfold try1Rest1
  cases hstep : stepMute (q "mute") s with
  | none => exact hs
  | some s1 =>
    obtain ⟨x, rfl⟩ := stepMute_shape _ _ _ hstep
    exact try1Rest2_pause_false q _ h hs

theorem gatherTry1_pause_false (q : String → QueryOutcome) (s : MpvState)
    (h : qFailsB (q "pause") = true) (hs : s.pause = false) :
    (gatherTry1 q s).pause = false := by
  unfold gatherTry1
  cases hstep : stepVolume (q "volume") s with
  | none => exact hs
  | some s1 =>
    obtain ⟨x, rfl⟩ := stepVolume_shape _ _ _ hstep
    exact try1Rest1_pause_false q _ h hs

theorem try1Rest1_mute_false (q : String → QueryOutcome) (s : MpvState)
    (h : qFailsB (q "mute") = true) (hs : s.mute = false) :
    (try1Rest1 q s).mute = false := by
  unfold try1Rest1
  cases hq : q "mute" with
  | raised => exact hs
  | val v =>
    rw [hq] at h
    have hv : pyTruthy v = false := by
      cases v with
      | pyNone => rfl
      | pyBool b => simp [qFailsB] at h
      | pyInt n => simp [qFailsB] at h
      | pyFloat x => simp [qFailsB] at h
      | pyStr x => simp [qFailsB] at h
      | pyArr xs => simp [qFailsB] at h
      | pyDict xs => simp [qFailsB] at h
    show (try1Rest2 q { s with mute := pyTruthy v }).mute = false
    obtain ⟨p, ti, tp, d, h2⟩ := try1Rest2_shape q { s with mute := pyTruthy v }
    rw [h2]
    exact hv

theorem gatherTry1_mute_false (q : String → QueryOutcome) (s : MpvState)
    (h : qFailsB (q "mute") = true) (hs : s.mute = false) :
    (gatherTry1 q s).mute = false := by
  unfold gatherTry1
  cases hstep : stepVolume (q "volume") s with
  | none => exact hs
  | some s1 =>
    obtain ⟨x, rfl⟩ := stepVolume_shape _ _ _ hstep
    exact try1Rest1_mute_false q _ h hs

theorem gatherTry1_volume_zero (q : String → QueryOutcome) (s : MpvState)
    (h : qFailsB (q "volume") = true) (hs : s.volume = 0) :
    (gatherTry1 q s).volume = 0 := by
  unfold gatherTry1
  cases hq : q "volume" with
  | raised => exact hs
  | val v =>
    rw [hq] at h
    cases v with
    | pyNone =>
      show (try1Rest1 q s).volume = 0
      obtain ⟨m, p, ti, tp, d, h1⟩ := try1Rest1_shape q s
      rw [h1]
      exact hs
    | pyBool b => simp [qFailsB] at h
    | pyInt n => simp [qFailsB] at h
    | pyFloat x => simp [qFailsB] at h
    | pyStr x => simp [qFailsB] at h
    | pyArr xs => simp [qFailsB] at h
    | pyDict xs => simp [qFailsB] at h

theorem gatherTry2_of_fail (q : String → QueryOutcome) (s : MpvState)
    (h : qFailsB (q "audio-params") = true) : gatherTry2 q s = s := by
  unfold gatherTry2
  cases hq : q "audio-params" with
  | raised => rfl
  | val v =>
    rw [hq] at h
    cases v with
    | pyNone => rfl
    | pyBool b => simp [qFailsB] at h
    | pyInt n => simp [qFailsB] at h
    | pyFloat x => simp [qFailsB] at h
    | pyStr x => simp [qFailsB] at h
    | pyArr xs => simp [qFailsB] at h
    | pyDict xs => simp [qFailsB] at h

theorem gatherTry3_of_fail (q : String → QueryOutcome) (s : MpvState)
    (h : qFailsB (q "audio-bitrate") = true) : gatherTry3 q s = s := by
  unfold gatherTry3
  cases hq : q "audio-bitrate" with
  | raised => rfl
  | val v =>
    rw [hq] at h
    cases v with
    | pyNone => rfl
    | pyBool b => simp [qFailsB] at h
    | pyInt n => simp [qFailsB] at h
    | pyFloat x => simp [qFailsB] at h
    | pyStr x => simp [qFailsB] at h
    | pyArr xs => simp [qFailsB] at h
    | pyDict xs => simp [qFailsB] at h

/-- C5: the State Sampler always assembles a complete snapshot, and every
individually failed query (raised, or resolved to Python `None` by
timeout/mismatch) leaves its field at the zero/unknown default instead of
aborting the sample; the caller-supplied identity fields are always
populated. -/
theorem c5_sampler_defaults (q : String → QueryOutcome)
    (sn pm cu so : Option String) :
    (qFailsB (q "volume") = true → (gatherMpvState q sn pm cu so).volume = 0) ∧
    (qFailsB (q "mute") = true → (gatherMpvState q sn pm cu so).mute = false) ∧
    (qFailsB (q "pause") = true → (gatherMpvState q sn pm cu so).pause = false) ∧
    (qFailsB (q "metadata/icy-title") = true → qFailsB (q "media-title") = true →
      (gatherMpvState q sn pm cu so).media_title = "") ∧
    (qFailsB (q "time-pos") = true → (gatherMpvState q sn pm cu so).time_pos = 0) ∧
    (qFailsB (q "duration") = true → (gatherMpvState q sn pm cu so).duration = none) ∧
    (qFailsB (q "audio-params") = true →
      (gatherMpvState q sn pm cu so).audio_codec = none ∧
      (gatherMpvState q sn pm cu so).samplerate_hz = none) ∧
    (qFailsB (q "audio-bitrate") = true →
      (gatherMpvState q sn pm cu so).audio_bitrate_kbps = none) ∧
    (gatherMpvState q sn pm cu so).station_name = sn.getD "" ∧
    (gatherMpvState q sn pm cu so).play_mode = pm.getD "" ∧
    (gatherMpvState q sn pm cu so).channel_url = cu.getD "" ∧
    (gatherMpvState q sn pm cu so).source = so.getD "" := by
  have s0def : (initialMpvState sn pm cu so).volume = 0 ∧
      (initialMpvState sn pm cu so).mute = false ∧
      (initialMpvState sn pm cu so).pause = false ∧
      (initialMpvState sn pm cu so).media_title = "" ∧
      (initialMpvState sn pm cu so).time_pos = 0 ∧
      (initialMpvState sn pm cu so).duration = none :=
    ⟨rfl, rfl, rfl, rfl, rfl, rfl⟩
  obtain ⟨cc, sr, bb, h23⟩ :=
    gatherTry23_shape q (gatherTry1 q (initialMpvState sn pm cu so))
  obtain ⟨v, m, p, ti, tp, d, h1⟩ :=
    gatherTry1_shape q (initialMpvState sn pm cu so)
  refine ⟨?_, ?_, ?_, ?_, ?_, ?_, ?_, ?_, ?_, ?_, ?_, ?_⟩
  · intro h
    show (gatherTry3 q (gatherTry2 q (gatherTry1 q (initialMpvState sn pm cu so)))).volume = 0
    rw [h23]
    exact gatherTry1_volume_zero q _ h s0def.1
  · intro h
    show (gatherTry3 q (gatherTry2 q (gatherTry1 q (initialMpvState sn pm cu so)))).mute = false
    rw [h23]
    exact gatherTry1_mute_false q _ h s0def.2.1
  · intro h
    show (gatherTry3 q (gatherTry2 q (gatherTry1 q (initialMpvState sn pm cu so)))).pause = false
    rw [h23]
    exact gatherTry1_pause_false q _ h s0def.2.2.1
  · intro ha hb
    show (gatherTry3 q (gatherTry2 q (gatherTry1 q (initialMpvState sn pm cu so)))).media_title = ""
    rw [h23]
    exact gatherTry1_title_blank q _ ha hb s0def.2.2.2.1
  · intro h
    show (gatherTry3 q (gatherTry2 q (gatherTry1 q (initialMpvState sn pm cu so)))).time_pos = 0
    rw [h23]
    exact gatherTry1_time_zero q _ h s0def.2.2.2.2.1
  · intro h
    show (gatherTry3 q (gatherTry2 q (gatherTry1 q (initialMpvState sn pm cu so)))).duration = none
    rw [h23]
    exact gatherTry1_duration_none q _ h s0def.2.2.2.2.2
  · intro h
    constructor
    · show (gatherTry3 q (gatherTry2 q (gatherTry1 q (initialMpvState sn pm cu so)))).audio_codec = none
      obtain ⟨b2, h3⟩ := gatherTry3_shape q
        (gatherTry2 q (gatherTry1 q (initialMpvState sn pm cu so)))
      rw [h3, gatherTry2_of_fail q _ h, h1]
      rfl
    · show (gatherTry3 q (gatherTry2 q (gatherTry1 q (initialMpvState sn pm cu so)))).samplerate_hz = none
      obtain ⟨b2, h3⟩ := gatherTry3_shape q
        (gatherTry2 q (gatherTry1 q (initialMpvState sn pm cu so)))
      rw [h3, gatherTry2_of_fail q _ h, h1]
      rfl
  · intro h
    show (gatherTry3 q (gatherTry2 q (gatherTry1 q (initialMpvState sn pm cu so)))).audio_bitrate_kbps = none
    rw [gatherTry3_of_fail q _ h]
    obtain ⟨c2, sr2, h2⟩ := gatherTry2_shape q (gatherTry1 q (initialMpvState sn pm cu so))
    rw [h2, h1]
    rfl
  · show (gatherTry3 q (gatherTry2 q (gatherTry1 q (initialMpvState sn pm cu so)))).station_name = sn.getD ""
    rw [h23, h1]
    rfl
  · show (gatherTry3 q (gatherTry2 q (gatherTry1 q (initialMpvState sn pm cu so)))).play_mode = pm.getD ""
    rw [h23, h1]
    rfl
  · show (gatherTry3 q (gatherTry2 q (gatherTry1 q (initialMpvState sn pm cu so)))).channel_url = cu.getD ""
    rw [h23, h1]
    rfl
  · show (gatherTry3 q (gatherTry2 q (gatherTry1 q (initialMpvState sn pm cu so)))).source = so.getD ""
    rw [h23, h1]
    rfl

theorem c5_witness :
    (gatherMpvState (fun _ => .raised) (some "Radio X") none (some "http://u") none).volume = 0 ∧
    (gatherMpvState (fun _ => .raised) (some "Radio X") none (some "http://u") none).mute = false ∧
    (gatherMpvState (fun _ => .raised) (some "Radio X") none (some "http://u") none).media_title = "" ∧
    (gatherMpvState (fun _ => .raised) (some "Radio X") none (some "http://u") none).duration = none ∧
    (gatherMpvState (fun _ => .raised) (some "Radio X") none (some "http://u") none).station_name = "Radio X" := by
  have h := c5_sampler_defaults (fun _ => .raised) (some "Radio X") none (some "http://u") none
  exact ⟨h.1 rfl, h.2.1 rfl, h.2.2.2.1 rfl rfl, h.2.2.2.2.2.1 rfl, h.2.2.2.2.2.2.2.2.1⟩

theorem pyOrQ0_eq (q : ℚ) : pyOrQ0 q = q := by
  unfold pyOrQ0
  split
  · exact (by assumption : q = 0).symm
  · rfl

theorem pyTruncQ_eq_floor (q : ℚ) (h : 0 ≤ q) : pyTruncQ q = ⌊q⌋ := by
  unfold pyTruncQ
  exact if_pos h

/-- C9: the Render Projection's elapsed-time field is the whole-second
truncation of the snapshot's elapsed time, so two snapshots that differ
only in the fractional part of (non-negative) elapsed time project
equally. -/
theorem c9_projection_truncation :
    (∀ s : MpvState, (osdDisplayState s).time_pos_sec = pyTruncQ s.time_pos) ∧
    (∀ (s : MpvState) (q1 q2 : ℚ), 0 ≤ q1 → 0 ≤ q2 → ⌊q1⌋ = ⌊q2⌋ →
      osdDisplayState { s with time_pos := q1 } =
      osdDisplayState { s with time_pos := q2 }) := by
  constructor
  · intro s
    show pyTruncQ (pyOrQ0 s.time_pos) = pyTruncQ s.time_pos
    rw [pyOrQ0_eq]
  · intro s q1 q2 h1 h2 hfl
    unfold osdDisplayState
    simp only [pyOrQ0_eq]
    rw [pyTruncQ_eq_floor _ h1, pyTruncQ_eq_floor _ h2, hfl]

theorem c9_witness :
    (osdDisplayState (initialMpvState none none none none)).time_pos_sec =
      pyTruncQ (initialMpvState none none none none).time_pos ∧
    osdDisplayState { initialMpvState none none none none with time_pos := 3 } =
    osdDisplayState { initialMpvState none none none none with time_pos := 7/2 } :=
  ⟨c9_projection_truncation.1 _,
   c9_projection_truncation.2 _ 3 (7/2) (by norm_num) (by norm_num) (by norm_num)⟩

theorem strRepeatI_length (c : Char) (n : Int) :
    (strRepeatI c n).length = n.toNat := by
  simp [strRepeatI, String.length]

theorem strRepeatI_nonpos (c : Char) (n : Int) (h : n ≤ 0) :
    strRepeatI c n = strRepeatI ' ' n := by
  unfold strRepeatI
  rw [Int.toNat_of_nonpos h]
  rfl

/-- The clamped fill cell count of the source equals the floor of the
clamped elapsed/duration proportion scaled to the inner bar width. -/
theorem clampFill_eq (pos total width : Int) (ht : 0 < total) (hp : 0 ≤ pos)
    (hw : 2 ≤ width) :
    min (pyTruncQ ((pos : ℚ) / (total : ℚ) * ((width : ℚ) - 2))) (width - 2) =
    ⌊min ((pos : ℚ) / (total : ℚ)) 1 * ((width : ℚ) - 2)⌋ := by
  have htQ : (0 : ℚ) < (total : ℚ) := by exact_mod_cast ht
  have hpQ : (0 : ℚ) ≤ (pos : ℚ) := by exact_mod_cast hp
  have hr0 : 0 ≤ (pos : ℚ) / (total : ℚ) := div_nonneg hpQ htQ.le
  have hnQ : (0 : ℚ) ≤ (width : ℚ) - 2 := by
    have h2 : (2 : ℚ) ≤ (width : ℚ) := by exact_mod_cast hw
    linarith
  have hcast : ((width - 2 : Int) : ℚ) = (width : ℚ) - 2 := by push_cast; ring
  have htrunc : pyTruncQ ((pos : ℚ) / (total : ℚ) * ((width : ℚ) - 2)) =
      ⌊(pos : ℚ) / (total : ℚ) * ((width : ℚ) - 2)⌋ :=
    pyTruncQ_eq_floor _ (mul_nonneg hr0 hnQ)
  rcases le_or_lt ((pos : ℚ) / (total : ℚ)) 1 with hle | hgt
  · rw [htrunc, min_eq_left hle, min_eq_left]
    have hmul : (pos : ℚ) / (total : ℚ) * ((width : ℚ) - 2) ≤ (width : ℚ) - 2 := by
      nlinarith
    calc ⌊(pos : ℚ) / (total : ℚ) * ((width : ℚ) - 2)⌋
        ≤ ⌊(width : ℚ) - 2⌋ := Int.floor_le_floor hmul
      _ = width - 2 := by rw [← hcast, Int.floor_intCast]
  · have hmul : (width : ℚ) - 2 ≤ (pos : ℚ) / (total : ℚ) * ((width : ℚ) - 2) := by
      nlinarith
    have hge : (width - 2 : Int) ≤ ⌊(pos : ℚ) / (total : ℚ) * ((width : ℚ) - 2)⌋ := by
      calc (width - 2 : Int) = ⌊((width - 2 : Int) : ℚ)⌋ := (Int.floor_intCast _).symm
        _ = ⌊(width : ℚ) - 2⌋ := by rw [hcast]
        _ ≤ ⌊(pos : ℚ) / (total : ℚ) * ((width : ℚ) - 2)⌋ := Int.floor_le_floor hmul
    rw [htrunc, min_eq_right hge, min_eq_right hgt.le, one_mul, ← hcast,
      Int.floor_intCast]

theorem clampFill_bounds (p : ℚ) (width : Int) (hr0 : 0 ≤ p) (hw : 2 ≤ width) :
    0 ≤ ⌊min p 1 * ((width : ℚ) - 2)⌋ ∧
    ⌊min p 1 * ((width : ℚ) - 2)⌋ ≤ width - 2 := by
  have hnQ : (0 : ℚ) ≤ (width : ℚ) - 2 := by
    have h2 : (2 : ℚ) ≤ (width : ℚ) := by exact_mod_cast hw
    linarith
  have hcast : ((width - 2 : Int) : ℚ) = (width : ℚ) - 2 := by push_cast; ring
  constructor
  · exact Int.floor_nonneg.mpr (mul_nonneg (le_min hr0 zero_le_one) hnQ)
  · have hle : min p 1 * ((width : ℚ) - 2) ≤ (width : ℚ) - 2 := by
      have := min_le_right p 1
      nlinarith
    calc ⌊min p 1 * ((width : ℚ) - 2)⌋ ≤ ⌊(width : ℚ) - 2⌋ := Int.floor_le_floor hle
      _ = width - 2 := by rw [← hcast, Int.floor_intCast]

/-- C8: for a known positive duration and non-negative elapsed time, the
bar's filled-cell count is the floor of the clamped `elapsed/duration`
proportion times the inner width, the rendered bar is exactly `width`
characters; for unknown or non-positive duration, the renderer emits the
indeterminate live line (elapsed time plus marker) instead. -/
theorem c8_progress_bar :
    (∀ pos total width : Int, 0 < total → 0 ≤ pos → 2 ≤ width →
      draw_osd_progress_bar pos total width =
        "[" ++ strRepeatI '▓' (⌊min ((pos : ℚ) / (total : ℚ)) 1 * ((width : ℚ) - 2)⌋) ++
          strRepeatI '░' (width - 2 - ⌊min ((pos : ℚ) / (total : ℚ)) 1 * ((width : ℚ) - 2)⌋) ++ "]" ∧
      (draw_osd_progress_bar pos total width).length = width.toNat) ∧
    (∀ (tp : ℚ) (w : Nat), osdProgressLine tp none w = osdLiveLine tp w) ∧
    (∀ (tp d : ℚ) (w : Nat), d ≤ 0 → osdProgressLine tp (some d) w = osdLiveLine tp w) := by
  refine ⟨fun pos total width ht hp hw => ?_, fun tp w => rfl, fun tp d w hd => ?_⟩
  · have hb := clampFill_bounds ((pos : ℚ) / (total : ℚ)) width
      (div_nonneg (by exact_mod_cast hp) (by positivity)) hw
    unfold draw_osd_progress_bar
    dsimp only
    split
    · rename_i hcond
      have hw2 : width = 2 := by
        rcases hcond with h | h
        · omega
        · omega
      subst hw2
      have hk : ⌊min ((pos : ℚ) / (total : ℚ)) 1 * (((2 : Int) : ℚ) - 2)⌋ = 0 := by
        norm_num
      constructor
      · rw [hk]
        decide
      · decide
    · rename_i hcond
      rw [clampFill_eq pos total width ht hp hw]
      refine ⟨rfl, ?_⟩
      rw [String.length_append, String.length_append, String.length_append,
        strRepeatI_length, strRepeatI_length]
      have h1 : ("[" : String).length = 1 := rfl
      have h2 : ("]" : String).length = 1 := rfl
      rw [h1, h2]
      omega
  · simp only [osdProgressLine]
    rw [if_neg (not_lt.mpr hd)]

theorem c8_witness :
    (draw_osd_progress_bar 30 60 12 =
      "[" ++ strRepeatI '▓' (⌊min (((30 : Int) : ℚ) / ((60 : Int) : ℚ)) 1 * (((12 : Int) : ℚ) - 2)⌋) ++
        strRepeatI '░' (12 - 2 - ⌊min (((30 : Int) : ℚ) / ((60 : Int) : ℚ)) 1 * (((12 : Int) : ℚ) - 2)⌋) ++ "]" ∧
      (draw_osd_progress_bar 30 60 12).length = (12 : Int).toNat) ∧
    osdProgressLine 5 (some 0) 80 = osdLiveLine 5 80 :=
  ⟨c8_progress_bar.1 30 60 12 (by norm_num) (by norm_num) (by norm_num),
   c8_progress_bar.2.2 5 0 80 le_rfl⟩

/-- A concrete playing-state snapshot used for concrete renderer calls. -/
def cexState : MpvState :=
  { volume := 40
    mute := false
    pause := false
    media_title := "Song"
    time_pos := 0
    duration := none
    station_name := "St"
    play_mode := ""
    channel_url := "http://x"
    source := ""
    audio_codec := none
    audio_bitrate_kbps := none
    samplerate_hz := none }

/-- On a non-first call whose projection equals the previous one, the
renderer's whole result is: the toggled store, the unchanged projection,
and exactly the store-update messages as output. -/
theorem draw_skip_eq (favs : List Fav) (w : Nat) (state : MpvState)
    (key : Option String) :
    draw_custom_osd favs (some (osdDisplayState state)) w state false key =
    { favs := (if key = some "f" ∧ state.channel_url ≠ "" then
          toggleFavorite favs state.channel_url state.station_name
        else (favs, false, [])).1
      last := some (osdDisplayState state)
      out := (if key = some "f" ∧ state.channel_url ≠ "" then
          toggleFavorite favs state.channel_url state.station_name
        else (favs, false, [])).2.2 } := by
  unfold draw_custom_osd
  dsimp only
  rw [if_pos ⟨rfl, rfl, rfl⟩]

/-- The favorites toggle prints at most one store message. -/
theorem toggleFavorite_msgs (favs : List Fav) (u n : String) :
    (toggleFavorite favs u n).2.2 = [] ∨
    (toggleFavorite favs u n).2.2 = [cWrap "Añadido a favoritos." ansiGreen] ∨
    (toggleFavorite favs u n).2.2 = [cWrap "Ya está en favoritos." ansiYellow] ∨
    (toggleFavorite favs u n).2.2 =
      [cWrap "URL inválida, no se puede añadir a favoritos." ansiRed] := by
  unfold toggleFavorite addFavorite
  dsimp only
  split_ifs <;> simp

/-- C1 counterexample: a render call that is not the first frame and whose
projection equals the previous one, but carries the toggle-favorite key
for a URL not yet stored, writes the favorites confirmation line — its
output is not empty, so the call does not produce zero output bytes. -/
theorem c1_counterexample :
    (draw_custom_osd [] (some (osdDisplayState cexState)) 80 cexState
      false (some "f")).out ≠ [] := by decide

/-- C1 (amended): on a non-first call whose projection equals the previous
one the renderer never redraws the panel nor moves the cursor; it writes
zero bytes, except that a call carrying the toggle-favorite key with a
non-empty channel URL may emit the favorites store's single confirmation
line, which is the only possible output of such a call. -/
theorem c1_skip_output (favs : List Fav) (w : Nat) (state : MpvState)
    (key : Option String) :
    ((draw_custom_osd favs (some (osdDisplayState state)) w state false key).out =
      (if key = some "f" ∧ state.channel_url ≠ "" then
        (toggleFavorite favs state.channel_url state.station_name).2.2 else [])) ∧
    (¬(key = some "f" ∧ state.channel_url ≠ "") →
      (draw_custom_osd favs (some (osdDisplayState state)) w state false key).out = []) ∧
    (∀ l ∈ (draw_custom_osd favs (some (osdDisplayState state)) w state false key).out,
      l = cWrap "Añadido a favoritos." ansiGreen ∨
      l = cWrap "Ya está en favoritos." ansiYellow ∨
      l = cWrap "URL inválida, no se puede añadir a favoritos." ansiRed) := by
  have hout : (draw_custom_osd favs (some (osdDisplayState state)) w state false key).out =
      (if key = some "f" ∧ state.channel_url ≠ "" then
        (toggleFavorite favs state.channel_url state.station_name).2.2 else []) := by
    rw [draw_skip_eq]
    by_cases hc : key = some "f" ∧ state.channel_url ≠ ""
    · rw [if_pos hc, if_pos hc]
    · rw [if_neg hc, if_neg hc]
  refine ⟨hout, fun hc => by rw [hout, if_neg hc], fun l hl => ?_⟩
  rw [hout] at hl
  by_cases hc : key = some "f" ∧ state.channel_url ≠ ""
  · rw [if_pos hc] at hl
    rcases toggleFavorite_msgs favs state.channel_url state.station_name with
      h | h | h | h <;> rw [h] at hl <;> simp at hl <;> simp [hl]
  · rw [if_neg hc] at hl
    simp at hl

theorem c1_witness :
    (draw_custom_osd [] (some (osdDisplayState cexState)) 80 cexState
      false none).out = [] :=
  (c1_skip_output [] 80 cexState none).2.1 (by simp)

/-- C10: under the toggle-favorite key with a non-empty channel URL, a
call whose projection equals the previous one still toggles the persisted
favorites store, its only output is the store's own message (no panel
redraw, no cursor movement), and — since the Render Projection carries no
favorite field — the projection recorded for change detection never
depends on the favorites store at all. -/
theorem c10_favorite_toggle (favs : List Fav) (w : Nat) (state : MpvState)
    (h : state.channel_url ≠ "") :
    ((draw_custom_osd favs (some (osdDisplayState state)) w state false
        (some "f")).favs =
      (toggleFavorite favs state.channel_url state.station_name).1) ∧
    ((draw_custom_osd favs (some (osdDisplayState state)) w state false
        (some "f")).out =
      (toggleFavorite favs state.channel_url state.station_name).2.2) ∧
    (∀ (favs1 favs2 : List Fav) (last : Option OsdProj) (w2 : Nat)
      (st : MpvState) (ft : Bool) (k : Option String),
      (draw_custom_osd favs1 last w2 st ft k).last =
      (draw_custom_osd favs2 last w2 st ft k).last) := by
  refine ⟨?_, ?_, ?_⟩
  · rw [draw_skip_eq]
    rw [if_pos ⟨rfl, h⟩]
  · rw [draw_skip_eq]
    rw [if_pos ⟨rfl, h⟩]
  · intro favs1 favs2 last w2 st ft k
    unfold draw_custom_osd
    dsimp only
    split
    · rfl
    · rfl

theorem c10_witness :
    ((draw_custom_osd [] (some (osdDisplayState cexState)) 80 cexState false
        (some "f")).favs =
      (toggleFavorite [] cexState.channel_url cexState.station_name).1) ∧
    ((draw_custom_osd [] (some (osdDisplayState cexState)) 80 cexState false
        (some "f")).out =
      (toggleFavorite [] cexState.channel_url cexState.station_name).2.2) :=
  ⟨(c10_favorite_toggle [] 80 cexState (by decide)).1,
   (c10_favorite_toggle [] 80 cexState (by decide)).2.1⟩

theorem ipcConnectLoopGo_none (connects : Nat → Option Unit) :
    ∀ fuel i, (∀ j, i ≤ j → j < i + fuel → connects j = none) →
      ipcConnectLoop.go connects fuel i = none := by
  intro fuel
  induction fuel with
  | zero => intro i _; rfl
  | succ n ih =>
    intro i h
    unfold ipcConnectLoop.go
    rw [h i (Nat.le_refl i) (by omega)]
    exact ih (i + 1) (fun j h1 h2 => h j (by omega) (by omega))

/-- C2 counterexample: with the channel never connectable, the process
running, and the kill/wait collecting exit status 0 (the process died on
its own in the race window), the session kills the process and draws no
panel — but returns 0, not the distinguished non-zero fallback code. -/
theorem c2_counterexample :
    (idleSessionConnPhase (fun _ => none) true (some 0) 7
      { killed := false, panelsDrawn := 3, exitCode := 0 }).killed = true ∧
    (idleSessionConnPhase (fun _ => none) true (some 0) 7
      { killed := false, panelsDrawn := 3, exitCode := 0 }).panelsDrawn = 0 ∧
    (idleSessionConnPhase (fun _ => none) true (some 0) 7
      { killed := false, panelsDrawn := 3, exitCode := 0 }).exitCode = 0 := by
  decide

/-- C2 (amended): in idle-then-load mode, when all 40 connect attempts
fail and the spawned process is still running, the process is killed and
no panel is ever drawn; the session returns the exit code collected after
the kill when one is available, and the distinguished fallback code 1
exactly when none is. -/
theorem c2_idle_connect_failure (connects : Nat → Option Unit)
    (rcK : Option Int) (rcE : Int) (rest : SessionOutcome)
    (h : ∀ i, i < 40 → connects i = none) :
    (idleSessionConnPhase connects true rcK rcE rest).killed = true ∧
    (idleSessionConnPhase connects true rcK rcE rest).panelsDrawn = 0 ∧
    (idleSessionConnPhase connects true rcK rcE rest).exitCode = rcK.getD 1 ∧
    (rcK = none → (idleSessionConnPhase connects true rcK rcE rest).exitCode = 1) := by
  have hloop : ipcConnectLoop connects = none := by
    unfold ipcConnectLoop
    exact ipcConnectLoopGo_none connects 40 0 (fun j _ hj => h j (by omega))
  unfold idleSessionConnPhase
  rw [hloop]
  exact ⟨rfl, rfl, rfl, fun hn => by rw [hn]; rfl⟩

theorem c2_witness :
    (idleSessionConnPhase (fun _ => none) true none 5
      { killed := false, panelsDrawn := 0, exitCode := 0 }).killed = true ∧
    (idleSessionConnPhase (fun _ => none) true none 5
      { killed := false, panelsDrawn := 0, exitCode := 0 }).panelsDrawn = 0 ∧
    (idleSessionConnPhase (fun _ => none) true none 5
      { killed := false, panelsDrawn := 0, exitCode := 0 }).exitCode = 1 := by
  have h := c2_idle_connect_failure (fun _ => none) none 5
    { killed := false, panelsDrawn := 0, exitCode := 0 } (fun i _ => rfl)
  exact ⟨h.1, h.2.1, h.2.2.2 rfl⟩

end CmdRadioPy
